import Mathlib

/-!
Verification of the mTP64 pack builder (ktx2mtp64.c).

The definitions below are a shallow embedding of the pack-builder source.
Machine integers are modelled as `Nat` with explicit reductions modulo
`2 ^ 32` where the C code performs 32-bit unsigned arithmetic.  The output
file is modelled by the append position (`ftell`) together with the data
the claims are about: the mapping table, the duplicate report, the record
start/end positions and the per-record format bytes.  The external
collaborators (XXH64, the LZ4 frame compressor, qsort's permutation) are
parameters of the model, since the claims hold or fail independently of
their concrete behaviour.
-/

set_option autoImplicit false

namespace KtxToMtp64

def U32 : Nat := 4294967296

def UINT32_MAX : Nat := U32 - 1

def CRC32_STR_LEN : Nat := 8

def GL_ETC1_RGB8_OES : Nat := 0x8D64

def GL_RGBA8_EXT : Nat := 0x8058

def DATA_LZ4_COMPRESSED : Nat := 0x80

/-- `compare_crc`: the qsort comparator.  The C source computes
`int64_t diff = tex1->crc - tex2->crc` where both fields are `uint32_t`:
the subtraction is performed in unsigned 32-bit arithmetic (wrapping) and
only then widened to `int64_t`, so `diff` is the wrapped difference in
`[0, 2^32)`. -/
def compare_crc (c1 c2 : Nat) : Int :=
  let diff : Int := Int.ofNat ((c1 % U32 + (U32 - c2 % U32)) % U32)
  if diff < 0 then -1 else if diff > 0 then 1 else 0

def isHexDigitCh (c : Char) : Bool :=
  (('0' ≤ c) && (c ≤ '9')) || (('a' ≤ c) && (c ≤ 'f')) || (('A' ≤ c) && (c ≤ 'F'))

def hexDigitVal (c : Char) : Nat :=
  if ('0' ≤ c) && (c ≤ '9') then c.toNat - '0'.toNat
  else if ('a' ≤ c) && (c ≤ 'f') then c.toNat - 'a'.toNat + 10
  else c.toNat - 'A'.toNat + 10

/-- `strtol(s, NULL, 16)` as used on the 8-character key string: skip
leading whitespace, optional sign, optional `0x` prefix, then the longest
run of hexadecimal digits.  When no digit can be parsed the result is `0`.
(Overflow clamping is irrelevant here: at most 8 hex digits fit in a
`long`.) -/
def strtol16 (s : List Char) : Int :=
  let s1 := s.dropWhile (fun c => c == ' ' || c == '\t' || c == '\n')
  let signed : Bool × List Char :=
    match s1 with
    | '-' :: r => (true, r)
    | '+' :: r => (false, r)
    | _ => (false, s1)
  let s2 := signed.2
  let s3 :=
    match s2 with
    | '0' :: c :: r =>
        if (c == 'x' || c == 'X') && isHexDigitCh (r.headD '!') then r else s2
    | _ => s2
  let mag : Nat := (s3.takeWhile isHexDigitCh).foldl (fun a c => a * 16 + hexDigitVal c) 0
  if signed.1 then -(mag : Int) else (mag : Int)

/-- Conversion of the `long` returned by `strtol` to the `uint32_t`
field `textures[i].crc`. -/
def toUInt32Val (x : Int) : Nat := (x % (U32 : Int)).toNat

/-- `strrchr(filename, '.')`: the characters strictly before the last
dot, or `none` when the filename has no dot. -/
def beforeLastDot (s : List Char) : Option (List Char) :=
  if '.' ∈ s then some ((s.reverse.dropWhile (fun c => !(c == '.'))).tail.reverse)
  else none

/-- `struct textures_s`: one catalog entry.  `data` holds the decoded
texture bytes that libktx returns for the file (`ktxTexture_GetData`),
which the body pass hashes and compresses. -/
structure TexEntry where
  crc : Nat
  ty : Nat
  data_sz : Nat
  filename : String
  data : List Nat
deriving Repr, DecidableEq, Inhabited

/-- One input file together with the observations the builder makes of
it: the 4-byte field at offset 28 (`glInternalformat`), whether libktx
can open it, `ktxTexture_GetDataSizeUncompressed`, and the decoded
bytes. -/
structure InputFile where
  filename : String
  glInternalformat : Nat
  ktxOk : Bool
  data_sz : Nat
  data : List Nat
deriving Repr, DecidableEq, Inhabited

inductive CatalogError where
  | noExtension
  | badFilename
  | fatalAssert
  | unsupportedFormat
  | ktxOpenError
  | tooLarge
deriving Repr, DecidableEq

/-- The per-file body of the `add_textures` loop: extension check,
length check, key parse with the `ASSERT(crc != UINT32_MAX)` guard
(`abort` modelled as an error), format probe, libktx open check, 4 GiB
check. -/
def addTexture (f : InputFile) : Except CatalogError TexEntry :=
  match beforeLastDot f.filename.data with
  | none => .error .noExtension
  | some pre =>
    if pre.length < CRC32_STR_LEN then .error .badFilename
    else
      let crcstr := pre.drop (pre.length - CRC32_STR_LEN)
      let crc := toUInt32Val (strtol16 crcstr)
      if crc = UINT32_MAX then .error .fatalAssert
      else if f.glInternalformat = GL_ETC1_RGB8_OES then
        if f.ktxOk then
          if f.data_sz > UINT32_MAX then .error .tooLarge
          else .ok ⟨crc, 0, f.data_sz, f.filename, f.data⟩
        else .error .ktxOpenError
      else if f.glInternalformat = GL_RGBA8_EXT then
        if f.ktxOk then
          if f.data_sz > UINT32_MAX then .error .tooLarge
          else .ok ⟨crc, 1, f.data_sz, f.filename, f.data⟩
        else .error .ktxOpenError
      else .error .unsupportedFormat

/-- `add_textures` minus the final qsort: the loop stops at the first
failing file and frees everything (the whole build aborts). -/
def addTextures : List InputFile → Except CatalogError (List TexEntry)
  | [] => .ok []
  | f :: fs =>
    match addTexture f with
    | .error e => .error e
    | .ok t =>
      match addTextures fs with
      | .error e => .error e
      | .ok ts => .ok (t :: ts)

/-- `struct map_s`: one mapping-table row.  `map` is allocated with
`malloc` and only the `crc` fields are filled, so `offset = none` models
a field that has never been written (indeterminate allocation
contents). -/
structure MapRow where
  crc : Nat
  offset : Option Nat
deriving Repr, DecidableEq, Inhabited

/-- The numeric fields of `struct mtp64_header_s`.  The fixed fields
(magic, version, tp_version, rom_target, pack_name, pack_author) are
byte constants accounted for in `headerSize`. -/
structure Mtp64Header where
  pack_size : Nat
  n_textures : Nat
  n_mappings : Nat
  first_texture_offset : Nat
  dictionary_size : Nat
deriving Repr, DecidableEq, Inhabited

/-- `MTP64_HEADER_INIT`: designated initializer; every numeric field
starts at zero. -/
def MTP64_HEADER_INIT : Mtp64Header := ⟨0, 0, 0, 0, 0⟩

/-- `sizeof(struct mtp64_header_s)` with `__attribute__((packed))`:
10 + 1 + 3 + 20 + 32 + 32 + 4 + 4 + 4 + 4 + 1. -/
def headerSize : Nat := 115

/-- `sizeof(struct texture_header_s)` packed: 1 + 4 + 2 + 2. -/
def texHeaderSize : Nat := 9

/-- `uint8_t unused[4] = { 0, 0, 0, 0 }`, written between the dictionary
data and the mapping table (and again on the final rewrite). -/
def unusedBytes : List Nat := [0, 0, 0, 0]

/-- `sizeof(struct map_s)` packed: 4 + 4. -/
def mapRowSize : Nat := 8

/-- The padding step after each texture record:
`add_pad = offset % 8; if (add_pad != 0) write(8 - add_pad)` zero
bytes. -/
def pad8 (offset : Nat) : Nat :=
  let add_pad := offset % 8
  if add_pad ≠ 0 then offset + (8 - add_pad) else offset

/-- The offset-backfill loop `for (i = 0; i < mtp64_hdr.n_textures; i++)`:
scan the first `bound` rows for the first one whose `crc` matches and
store the offset there; rows at index `bound` or later are never
examined. -/
def setOffsetBelow (m : List MapRow) (bound : Nat) (c v : Nat) : List MapRow :=
  match m, bound with
  | [], _ => []
  | row :: rest, 0 => row :: rest
  | row :: rest, b + 1 =>
    if row.crc = c then { row with offset := some v } :: rest
    else row :: setOffsetBelow rest b c v

/-- The duplicate scan `for (d = 0; d < mtp64_hdr.n_textures; d++)`:
first hash-list entry with an equal hash, if any. -/
def findDup (l : List (Nat × String)) (hv : Nat) : Option String :=
  match l with
  | [] => none
  | (dh, fn) :: rest => if dh = hv then some fn else findDup rest hv

/-- The mutable state of the texture-writing loop.  `pos` is `ftell` of
the append position; `recordStarts`/`recordEnds` are the file positions
where each texture record begins and where its data ends (before
padding); `recordFormats` the `data_format` bytes written. -/
structure PassState where
  pos : Nat
  map : List MapRow
  n_textures : Nat
  hashList : List (Nat × String)
  dupes : List (String × String)
  recordStarts : List Nat
  recordEnds : List Nat
  recordFormats : List Nat
deriving Repr, DecidableEq, Inhabited

/-- One iteration of the texture-writing loop for texture `tex`, with
`hsh` the content hash (XXH64 with its fixed seed) and `comp` the size
of the LZ4 frame the compressor produces for the decoded bytes.
A duplicate only appends to the report and jumps to `duplicate:`;
a new texture appends a hash-list entry, runs the offset-backfill loop
bounded by the current `n_textures`, writes the 9-byte record header
(`data_format = tex->type`) plus the compressed frame, and pads to the
next 8-byte boundary. -/
def passStep (hsh comp : List Nat → Nat) (s : PassState) (tex : TexEntry) : PassState :=
  let data_hash := hsh tex.data
  match findDup s.hashList data_hash with
  | some orig =>
      { s with dupes := s.dupes ++ [(orig, tex.filename)] }
  | none =>
      let lz4sz := comp tex.data
      let recEnd := s.pos + texHeaderSize + lz4sz
      { pos := pad8 recEnd
        map := setOffsetBelow s.map s.n_textures tex.crc (s.pos / 8)
        n_textures := s.n_textures + 1
        hashList := s.hashList ++ [(data_hash, tex.filename)]
        dupes := s.dupes
        recordStarts := s.recordStarts ++ [s.pos]
        recordEnds := s.recordEnds ++ [recEnd]
        recordFormats := s.recordFormats ++ [tex.ty] }

/-- The dictionary bytes actually written after the header: the header
field is `uint8_t dictionary_size = fdic_sz / 1024` and the bytes are
written only `if (mtp64_hdr.dictionary_size != 0)`. -/
def dictWritten (dictLen : Nat) : Nat :=
  if dictLen / 1024 % 256 ≠ 0 then dictLen else 0

/-- `ftell` after header, dictionary, `unused` and the mapping table
have been written: this is what the code stores into
`mtp64_hdr.first_texture_offset`. -/
def firstTextureOffset (dictLen entries : Nat) : Nat :=
  headerSize + dictWritten dictLen + unusedBytes.length + mapRowSize * entries

/-- The state at the start of the texture-writing loop: `map` prefilled
with the crc of each (sorted) catalog entry, offsets unwritten. -/
def initState (texs : List TexEntry) (dictLen entries : Nat) : PassState :=
  { pos := firstTextureOffset dictLen entries
    map := texs.map fun t => ⟨t.crc, none⟩
    n_textures := 0
    hashList := []
    dupes := []
    recordStarts := []
    recordEnds := []
    recordFormats := [] }

/-- What the finished pack file contains, as far as the claims are
concerned: the rewritten header, the rewritten mapping table, the
duplicate report, the record layout, and the total file size. -/
structure BuildResult where
  header : Mtp64Header
  map : List MapRow
  dupes : List (String × String)
  recordStarts : List Nat
  recordEnds : List Nat
  recordFormats : List Nat
  fileSize : Nat
deriving Repr, DecidableEq, Inhabited

/-- The write phase of `main` for a catalog `texs` (already sorted by
qsort), `entries` rows and a dictionary of `dictLen` bytes: write the
prefix, run the texture loop, then seek to 0 and rewrite the header
(whose `pack_size` still holds its `MTP64_HEADER_INIT` value), the
dictionary, `unused` and the table.  The file size is the larger of the
body end and the rewrite end. -/
def buildCore (hsh comp : List Nat → Nat) (texs : List TexEntry)
    (entries dictLen : Nat) : BuildResult :=
  let s := texs.foldl (passStep hsh comp) (initState texs dictLen entries)
  { header :=
      { MTP64_HEADER_INIT with
        n_textures := s.n_textures
        n_mappings := entries
        first_texture_offset := firstTextureOffset dictLen entries
        dictionary_size := dictLen / 1024 % 256 }
    map := s.map
    dupes := s.dupes
    recordStarts := s.recordStarts
    recordEnds := s.recordEnds
    recordFormats := s.recordFormats
    fileSize := max s.pos (headerSize + dictLen + unusedBytes.length + mapRowSize * entries) }

inductive BuildError where
  | catalog (e : CatalogError)
  | dictionarySize
deriving Repr, DecidableEq

/-- The build pipeline of `main` in source order: catalog construction
(which may fail per file), the qsort permutation `sortf` applied inside
`add_textures`, the dictionary-size check, and only then
`fopen(options.mtp64_out, "wb")` followed by the write phase.  The
`Bool` component records whether the output pack file was created. -/
def build (hsh comp : List Nat → Nat) (sortf : List TexEntry → List TexEntry)
    (files : List InputFile) (dict : Option (List Nat)) :
    Except BuildError BuildResult × Bool :=
  match addTextures files with
  | .error e => (.error (.catalog e), false)
  | .ok texs0 =>
    match dict with
    | none => (.ok (buildCore hsh comp (sortf texs0) texs0.length 0), true)
    | some d =>
      if d.length % 1024 ≠ 0 then (.error .dictionarySize, false)
      else (.ok (buildCore hsh comp (sortf texs0) texs0.length d.length), true)

/-! ### Concrete instantiations used by the witnesses and the
counterexample traces.  `hC` stands in for XXH64 (any hash function with
these signatures works for the parametric theorems; the traces only need
it to be concrete and to separate the sample data values used), `compC`
for the LZ4 frame size. -/

def hC : List Nat → Nat := fun d => d.foldl (fun a b => a * 256 + b + 1) 0

def compC : List Nat → Nat := fun d => d.length

def fileA : InputFile := ⟨"00000001.ktx", GL_ETC1_RGB8_OES, true, 8, [1]⟩

def fileB : InputFile := ⟨"00000002.ktx", GL_ETC1_RGB8_OES, true, 8, [1]⟩

def fileZ : InputFile := ⟨"ZZZZZZZZ.ktx", GL_ETC1_RGB8_OES, true, 8, [1]⟩

def texA : TexEntry := ⟨1, 0, 8, "00000001.ktx", [1]⟩

/-- The pack produced from the two inputs `00000001.ktx`, `00000002.ktx`
with bit-identical decoded bytes (the keys are already in ascending
order, so the outcome does not depend on the sort). -/
def resAB : BuildResult := ((build hC compC id [fileA, fileB] none).1.toOption).getD default

/-- The pack produced from the single input `00000001.ktx`, no
dictionary. -/
def resA : BuildResult := ((build hC compC id [fileA] none).1.toOption).getD default

/-- The pack produced from the single input `00000001.ktx` with a
1024-byte dictionary. -/
def resDict : BuildResult :=
  ((build hC compC id [fileA] (some (List.replicate 1024 0))).1.toOption).getD default

/-- A 262144-byte (256 KiB) dictionary: a multiple of 1024, so it passes
the only size check, but `262144 / 1024 = 256` truncates to 0 in the
`uint8_t dictionary_size` header field. -/
def dict256 : List Nat := List.replicate 262144 0

/-! ### The claims -/

/-- Claim C1: the mapping table of the produced pack should be sorted
strictly ascending by crc for every input order.  It is not: the
comparator `compare_crc` computes the crc difference in unsigned 32-bit
arithmetic before widening it to `int64_t`, so it never returns `-1`; on
the pair of crc keys 1 and 2 it answers "greater" in both argument
orders, an inconsistent comparator under which qsort cannot establish
(and is not required to establish) an ascending order, let alone a
permutation-independent one. -/
theorem c1_compare_crc_cannot_order :
    compare_crc 1 2 = 1 ∧ compare_crc 2 1 = 1 ∧
      ∀ a b : Nat, compare_crc a b ≠ -1 := by
  refine ⟨by decide, by decide, fun a b => ?_⟩
  have h0 : ¬ (Int.ofNat ((a % U32 + (U32 - b % U32)) % U32) < 0) :=
    Int.not_lt.mpr (Int.ofNat_nonneg _)
  simp only [compare_crc, if_neg h0]
  split <;> decide

/-- Claim C2: two inputs with bit-identical decoded bytes under keys 1
and 2 yield exactly one texture record and the duplicate pair in the
report (both as claimed), but neither mapping row ever receives an
offset: the duplicate path jumps straight to `duplicate:` past the
backfill, and the backfill loop for the original scans only the rows
below the current `n_textures` (here zero), so both offsets keep their
unwritten malloc contents instead of the shared record offset. -/
theorem c2_duplicate_rows_offset_unwritten :
    resAB.recordStarts = [135] ∧
    resAB.dupes = [("00000001.ktx", "00000002.ktx")] ∧
    resAB.map.map MapRow.offset = [none, none] := by decide

/-- Claim C3: every mapping row of a finished pack should hold the
referenced record's start offset divided by 8.  For a single input the
only row is never written (the backfill loop bound `n_textures` is 0
when the first texture is processed), and the table is allocated with
`malloc`, not zeroed, so the row holds no offset at all while the only
record starts at byte 127. -/
theorem c3_mapping_offset_never_backfilled :
    resA.map.map MapRow.offset = [none] ∧ resA.recordStarts = [127] := by decide

/-- Claim C4: every texture record should start at a multiple of 8.  The
first record starts exactly at `first_texture_offset` = 115 (packed
header) + 4 (reserved bytes) + 8·n_mappings, which is ≡ 7 (mod 8); only
the records after it are aligned by the padding step. -/
theorem c4_first_record_misaligned :
    resA.recordStarts = [resA.header.first_texture_offset] ∧
    resA.header.first_texture_offset % 8 = 7 := by decide

/-- Claim C5: every record body is an LZ4 frame (the writer always
compresses), so the claim expects `data_format` to carry the 0x80 high
bit.  The code stores `tex->type` verbatim and never ORs in
`DATA_LZ4_COMPRESSED`: the ETC1 record of this build carries
`data_format` 0, whose 0x80 bit is clear. -/
theorem c5_compressed_bit_not_set :
    resA.recordFormats = [0] ∧ Nat.land 0 DATA_LZ4_COMPRESSED = 0 := by decide

/-- Claim C7: the final header's `pack_size` should be the file size
divided by 8 and the reserved gap should be 3 zero bytes.  `pack_size`
keeps its `MTP64_HEADER_INIT` value 0 (it is never assigned) while the
produced file has 144 bytes, and the reserved region the code writes is
4 zero bytes. -/
theorem c7_pack_size_and_reserved :
    resA.header.pack_size ≠ resA.fileSize / 8 ∧
    resA.fileSize = 144 ∧ unusedBytes.length = 4 := by decide

/-- Claim C10: a filename whose 8 characters before the extension are
not hexadecimal should be rejected before any output exists.  `strtol`
returns 0 when it can parse no digit and the only guard is
`ASSERT(crc != UINT32_MAX)`, so `ZZZZZZZZ.ktx` is accepted into the
catalog with key 0 and the build goes on to create the output pack. -/
theorem c10_nonhex_filename_accepted :
    addTextures [fileZ] = .ok [⟨0, 0, 8, "ZZZZZZZZ.ktx", [1]⟩] ∧
    (build hC compC id [fileZ] none).2 = true := ⟨rfl, rfl⟩

/-! ### Helper lemmas for the parametric claims -/

theorem passStep_n_textures_le (hsh comp : List Nat → Nat) (s : PassState) (t : TexEntry) :
    (passStep hsh comp s t).n_textures ≤ s.n_textures + 1 := by
  cases hfd : findDup s.hashList (hsh t.data) with
  | some orig =>
    simp only [passStep, hfd]
    exact Nat.le_succ _
  | none =>
    simp only [passStep, hfd]
    exact Nat.le_refl _

theorem foldl_passStep_n_textures_le (hsh comp : List Nat → Nat) :
    ∀ (l : List TexEntry) (s : PassState),
      (l.foldl (passStep hsh comp) s).n_textures ≤ s.n_textures + l.length := by
  intro l
  induction l with
  | nil => intro s; simp
  | cons t ts ih =>
    intro s
    have h1 := passStep_n_textures_le hsh comp s t
    have h2 := ih (passStep hsh comp s t)
    simp only [List.foldl_cons, List.length_cons]
    omega

theorem addTextures_length :
    ∀ (fs : List InputFile) (ts : List TexEntry),
      addTextures fs = .ok ts → ts.length = fs.length := by
  intro fs
  induction fs with
  | nil =>
    intro ts h
    simp only [addTextures, Except.ok.injEq] at h
    subst h
    rfl
  | cons f fs ih =>
    intro ts h
    simp only [addTextures] at h
    cases haddf : addTexture f with
    | error e => rw [haddf] at h; cases h
    | ok t =>
      rw [haddf] at h
      cases hrest : addTextures fs with
      | error e => rw [hrest] at h; cases h
      | ok ts2 =>
        rw [hrest] at h
        cases h
        simp only [List.length_cons, ih ts2 hrest]

theorem passStep_recordStarts_mono (hsh comp : List Nat → Nat)
    (s : PassState) (t : TexEntry) :
    ∃ k, (passStep hsh comp s t).recordStarts = s.recordStarts ++ k := by
  cases hfd : findDup s.hashList (hsh t.data) with
  | some orig =>
    refine ⟨[], ?_⟩
    simp only [passStep, hfd]
    simp
  | none =>
    refine ⟨[s.pos], ?_⟩
    simp only [passStep, hfd]

theorem foldl_passStep_recordStarts_mono (hsh comp : List Nat → Nat) :
    ∀ (l : List TexEntry) (s : PassState),
      ∃ k, (l.foldl (passStep hsh comp) s).recordStarts = s.recordStarts ++ k := by
  intro l
  induction l with
  | nil => exact fun s => ⟨[], by simp⟩
  | cons t ts ih =>
    intro s
    obtain ⟨k1, hk1⟩ := passStep_recordStarts_mono hsh comp s t
    obtain ⟨k2, hk2⟩ := ih (passStep hsh comp s t)
    exact ⟨k1 ++ k2, by rw [List.foldl_cons, hk2, hk1, List.append_assoc]⟩

/-- The first catalog entry always takes the new-texture branch (the
hash list is empty), so the first record is written exactly at the
initial `ftell`. -/
theorem foldl_passStep_first_record (hsh comp : List Nat → Nat)
    (t : TexEntry) (ts : List TexEntry) (s : PassState)
    (hh : s.hashList = []) (hr : s.recordStarts = []) :
    ((t :: ts).foldl (passStep hsh comp) s).recordStarts.head? = some s.pos := by
  have h1 : (passStep hsh comp s t).recordStarts = [s.pos] := by
    unfold passStep
    rw [hh]
    simp [findDup, hr]
  obtain ⟨k, hk⟩ := foldl_passStep_recordStarts_mono hsh comp ts (passStep hsh comp s t)
  rw [List.foldl_cons, hk, h1]
  simp

theorem build_catalog_error (hsh comp : List Nat → Nat)
    (sortf : List TexEntry → List TexEntry) (files : List InputFile)
    (dict : Option (List Nat)) (e : CatalogError)
    (hcat : addTextures files = .error e) :
    build hsh comp sortf files dict = (.error (.catalog e), false) := by
  unfold build
  rw [hcat]

theorem build_ok_none (hsh comp : List Nat → Nat)
    (sortf : List TexEntry → List TexEntry) (files : List InputFile)
    (texs0 : List TexEntry) (hcat : addTextures files = .ok texs0) :
    build hsh comp sortf files none =
      (.ok (buildCore hsh comp (sortf texs0) texs0.length 0), true) := by
  unfold build
  rw [hcat]

theorem build_ok_some (hsh comp : List Nat → Nat)
    (sortf : List TexEntry → List TexEntry) (files : List InputFile)
    (texs0 : List TexEntry) (d : List Nat)
    (hcat : addTextures files = .ok texs0) (hd : d.length % 1024 = 0) :
    build hsh comp sortf files (some d) =
      (.ok (buildCore hsh comp (sortf texs0) texs0.length d.length), true) := by
  unfold build
  rw [hcat]
  simp [hd]

/-- Inversion of a successful `build`: the catalog succeeded, the
dictionary length (0 when absent) passed the multiple-of-1024 check, and
the result is the write phase over the sorted catalog. -/
theorem build_ok_inv (hsh comp : List Nat → Nat) (sortf : List TexEntry → List TexEntry)
    (files : List InputFile) (dict : Option (List Nat)) (res : BuildResult) (created : Bool)
    (hb : build hsh comp sortf files dict = (.ok res, created)) :
    ∃ texs0, addTextures files = .ok texs0 ∧
      (dict.getD []).length % 1024 = 0 ∧
      res = buildCore hsh comp (sortf texs0) texs0.length (dict.getD []).length := by
  cases hcat : addTextures files with
  | error e =>
    rw [build_catalog_error hsh comp sortf files dict e hcat] at hb
    simp at hb
  | ok texs0 =>
    refine ⟨texs0, rfl, ?_⟩
    cases dict with
    | none =>
      rw [build_ok_none hsh comp sortf files texs0 hcat] at hb
      simp only [Prod.mk.injEq, Except.ok.injEq] at hb
      exact ⟨by simp, hb.1.symm⟩
    | some d =>
      by_cases hd : d.length % 1024 = 0
      · rw [build_ok_some hsh comp sortf files texs0 d hcat hd] at hb
        simp only [Prod.mk.injEq, Except.ok.injEq] at hb
        exact ⟨by simpa using hd, hb.1.symm⟩
      · have herr : build hsh comp sortf files (some d) = (.error .dictionarySize, false) := by
          unfold build
          rw [hcat]
          simp [hd]
        rw [herr] at hb
        simp at hb

/-- When the dictionary length is a multiple of 1024 below 256 KiB, the
`uint8_t dictionary_size` field does not truncate to zero, so the bytes
written equal the dictionary length. -/
theorem dictWritten_eq (n : Nat) (hmod : n % 1024 = 0) (hlt : n < 262144) :
    dictWritten n = n := by
  unfold dictWritten
  by_cases h : n / 1024 % 256 ≠ 0
  · rw [if_pos h]
  · rw [if_neg h]
    omega

/-- Claim C6: for every successful build, the final header has one
mapping row per input descriptor (`n_mappings = files.length`,
duplicates included) and at least as many mapping rows as unique texture
bodies (`n_textures ≤ n_mappings`).  `sortf` is the permutation qsort
applies to the catalog; only its length preservation matters here. -/
theorem c6_mapping_count_invariant
    (hsh comp : List Nat → Nat) (sortf : List TexEntry → List TexEntry)
    (files : List InputFile) (dict : Option (List Nat))
    (res : BuildResult) (created : Bool)
    (hsort : ∀ l : List TexEntry, (sortf l).length = l.length)
    (hb : build hsh comp sortf files dict = (.ok res, created)) :
    res.header.n_mappings = files.length ∧
    res.header.n_textures ≤ res.header.n_mappings := by
  obtain ⟨texs0, hcat, -, hres⟩ := build_ok_inv hsh comp sortf files dict res created hb
  subst hres
  have hlen := addTextures_length files texs0 hcat
  constructor
  · exact hlen
  · have h1 : (buildCore hsh comp (sortf texs0) texs0.length
        (dict.getD []).length).header.n_textures ≤ (sortf texs0).length := by
      have h := foldl_passStep_n_textures_le hsh comp (sortf texs0)
        (initState (sortf texs0) (dict.getD []).length texs0.length)
      have h0 : (initState (sortf texs0) (dict.getD []).length texs0.length).n_textures = 0 := rfl
      show (List.foldl (passStep hsh comp)
        (initState (sortf texs0) (dict.getD []).length texs0.length)
        (sortf texs0)).n_textures ≤ (sortf texs0).length
      omega
    have h2 : (buildCore hsh comp (sortf texs0) texs0.length
        (dict.getD []).length).header.n_mappings = texs0.length := rfl
    rw [h2]
    calc (buildCore hsh comp (sortf texs0) texs0.length
          (dict.getD []).length).header.n_textures
        ≤ (sortf texs0).length := h1
      _ = texs0.length := hsort texs0

/-- Witness for C6 at a concrete build of two inputs with identical
content: 2 mapping rows, 1 texture. -/
theorem c6_mapping_count_invariant_witness :
    resAB.header.n_mappings = ([fileA, fileB] : List InputFile).length ∧
    resAB.header.n_textures ≤ resAB.header.n_mappings :=
  c6_mapping_count_invariant hC compC id [fileA, fileB] none resAB true
    (fun _ => rfl) rfl

/-- Claim C8, refuted as stated: the claim quantifies over every
successful build, but a 256 KiB dictionary is accepted (262144 is a
multiple of 1024) while `uint8_t dictionary_size = 262144 / 1024`
truncates to 0, so the first pass writes no dictionary bytes and
records `first_texture_offset = 115 + 0 + 4 + 8·n_mappings = 127` here,
not the claimed header + dictionary bytes + reserved + table sum
(262271) — and the final rewrite then writes all 262144 dictionary
bytes unconditionally, so 127 is not the table end of the final file
either. -/
theorem c8_truncated_dictionary_counterexample :
    build hC compC id [fileA] (some dict256) =
      (.ok (buildCore hC compC [texA] 1 dict256.length), true) ∧
    (buildCore hC compC [texA] 1 dict256.length).header.first_texture_offset ≠
      headerSize + dict256.length + unusedBytes.length +
        mapRowSize * ([fileA] : List InputFile).length := by
  have hlen : dict256.length = 262144 := by
    unfold dict256
    exact List.length_replicate _ _
  constructor
  · exact build_ok_some hC compC id [fileA] [texA] dict256 rfl (by rw [hlen])
  · rw [hlen]
    decide

/-- Claim C8 as amended: for every successful build with at least one
input whose dictionary is smaller than 262144 bytes (so the `uint8_t
dictionary_size` field does not truncate to zero), the final header's
`first_texture_offset` is the byte position immediately after the
mapping table — packed header (115 B) plus the dictionary bytes plus the
reserved bytes plus 8 bytes per mapping row — and that is exactly where
the first texture record begins. -/
theorem c8_first_texture_offset
    (hsh comp : List Nat → Nat) (sortf : List TexEntry → List TexEntry)
    (files : List InputFile) (dict : Option (List Nat))
    (res : BuildResult) (created : Bool)
    (hsort : ∀ l : List TexEntry, (sortf l).length = l.length)
    (hdlt : (dict.getD []).length < 262144)
    (hne : files ≠ [])
    (hb : build hsh comp sortf files dict = (.ok res, created)) :
    res.header.first_texture_offset =
      headerSize + (dict.getD []).length + unusedBytes.length + mapRowSize * files.length ∧
    res.recordStarts.head? = some res.header.first_texture_offset := by
  obtain ⟨texs0, hcat, hmod, hres⟩ := build_ok_inv hsh comp sortf files dict res created hb
  subst hres
  have hlen := addTextures_length files texs0 hcat
  have hfto : (buildCore hsh comp (sortf texs0) texs0.length
      (dict.getD []).length).header.first_texture_offset =
      firstTextureOffset (dict.getD []).length texs0.length := rfl
  have hw := dictWritten_eq (dict.getD []).length hmod hdlt
  constructor
  · rw [hfto]
    unfold firstTextureOffset
    rw [hw, hlen]
  · have hne2 : sortf texs0 ≠ [] := by
      intro hnil
      have h3 := hsort texs0
      rw [hnil] at h3
      simp only [List.length_nil] at h3
      have h4 : files.length = 0 := by omega
      exact hne (List.length_eq_zero.mp h4)
    obtain ⟨t, ts, hts⟩ := List.exists_cons_of_ne_nil hne2
    rw [hfto]
    show (List.foldl (passStep hsh comp)
      (initState (sortf texs0) (dict.getD []).length texs0.length)
      (sortf texs0)).recordStarts.head? =
      some (firstTextureOffset (dict.getD []).length texs0.length)
    rw [hts]
    exact foldl_passStep_first_record hsh comp t ts
      (initState (t :: ts) (dict.getD []).length texs0.length) rfl rfl

set_option maxRecDepth 100000 in
/-- Witness for C8: one input, a 1024-byte dictionary; the first record
begins at 115 + 1024 + 4 + 8 = 1151, the recorded first-texture
offset. -/
theorem c8_first_texture_offset_witness :
    resDict.header.first_texture_offset =
      headerSize + (((some (List.replicate (1024 : Nat) (0 : Nat)) : Option (List Nat)).getD []).length) +
        unusedBytes.length + mapRowSize * ([fileA] : List InputFile).length ∧
    resDict.recordStarts.head? = some resDict.header.first_texture_offset :=
  c8_first_texture_offset hC compC id [fileA] (some (List.replicate 1024 0)) resDict true
    (fun _ => rfl) (by decide) (by decide) rfl

/-- Claim C9: when the catalog succeeds but the dictionary file's size
is not a multiple of 1024, the build stops with the dictionary-size
error, and since `fopen(options.mtp64_out, "wb")` only happens after
this check, no output pack file is created (the `false` component). -/
theorem c9_dictionary_size_rejected_before_output
    (hsh comp : List Nat → Nat) (sortf : List TexEntry → List TexEntry)
    (files : List InputFile) (d : List Nat) (texs : List TexEntry)
    (hcat : addTextures files = .ok texs)
    (hd : d.length % 1024 ≠ 0) :
    build hsh comp sortf files (some d) = (.error .dictionarySize, false) := by
  unfold build
  rw [hcat]
  simp [hd]

set_option maxRecDepth 100000 in
/-- Witness for C9: a 1000-byte dictionary (1000 is not a multiple of
1024) is rejected with no output file created. -/
theorem c9_dictionary_size_rejected_before_output_witness :
    build hC compC id [fileA] (some (List.replicate 1000 0)) = (.error .dictionarySize, false) :=
  c9_dictionary_size_rejected_before_output hC compC id [fileA]
    (List.replicate 1000 0) [texA] rfl (by decide)

end KtxToMtp64
